import Mathlib

/-!
Shallow embedding of the `blog-testbed` repository's code snippets.

The repository holds two runtime artifacts:

* `src/app/log.ts`: a curried console logger `log`, the constant list
  `triangles`, the Ramda helpers `multiplySides = R.reduce(R.multiply, 1)`
  and `divideByTwo = R.flip(R.divide)(2)`, and the pipeline
  `averageTriangle = R.pipe(map multiplySides, log('mult'),
  map divideByTwo, log('div'), R.mean)`.
* a stream-mock helper file: `mockStream($) { return { $ }; }` plus
  compile-time-only `_type` declarations on RxJS observable interfaces.

Modelling choices:

* JavaScript numbers appearing here are modelled as rationals (`ℚ`); every
  arithmetic operation performed by the snippets (`*`, `/ 2`, sum, length)
  stays inside ℚ except division of the empty sum by the empty length in
  `R.mean`, which in JavaScript produces `NaN`.  A `NaN` result is modelled
  as `none : Option ℚ`; every genuinely numeric result is `some q`.
* The console is modelled as a list of write events; one call to
  `console.log.apply(null, xs)` is the single event `xs`.  `log` returns its
  data value paired with the write events it emitted.
* A JavaScript object is modelled as an association list from own-property
  names to values, so that the set of own fields of the object is visible.
* Code that could surface a thrown error is modelled in `Except JsError`;
  neither snippet contains a `throw` or any failing primitive, so the
  `Except`-level versions below are built from the always-succeeding
  primitives they call.
-/

namespace BlogTestbed

/-- `log` from `src/app/log.ts`:
`(...args) => (data) => { console.log.apply(null, args.concat([data])); return data; }`.
The returned pair is (returned value, console write events emitted);
the single write event carries `args.concat([data])`. -/
def log {V : Type} (args : List V) (data : V) : V × List (List V) :=
  (data, [args ++ [data]])

/-- `triangles` from `src/app/log.ts`: `[[2, 4], [3, 3], [4, 8]]`. -/
def triangles : List (List ℚ) :=
  [[2, 4], [3, 3], [4, 8]]

/-- `multiplySides = R.reduce(R.multiply, 1)`: left fold of multiplication
with initial accumulator 1. -/
def multiplySides (sides : List ℚ) : ℚ :=
  sides.foldl (· * ·) 1

/-- `divideByTwo = R.flip(R.divide)(2)`: `x => R.divide(x, 2) = x / 2`. -/
def divideByTwo (x : ℚ) : ℚ :=
  x / 2

/-- Ramda's `R.mean list = R.sum list / list.length`.  On the empty list
JavaScript computes `0 / 0 = NaN`; `NaN` is modelled as `none`. -/
def mean (l : List ℚ) : Option ℚ :=
  if l.length = 0 then none else some (l.sum / l.length)

/-- `averageTriangle = R.pipe(R.map(multiplySides), log('mult'),
R.map(divideByTwo), log('div'), R.mean)` from `src/app/log.ts`.
Both `log` stages return their input value unchanged (`(log args d).1 = d`,
by definition of `log` above) and only emit console writes, so the numeric
value of the pipeline is the composition of the value components. -/
def averageTriangle (ts : List (List ℚ)) : Option ℚ :=
  mean ((ts.map multiplySides).map divideByTwo)

/-- `mockStream($) { return { $ }; }` from the stream-mock helper file.
The object literal `{ $ }` creates an object with the single own property
named `$` holding the argument. -/
def mockStream {V : Type} (s : V) : List (String × V) :=
  [("$", s)]

/-- JavaScript runtime errors (none are ever constructed by these snippets). -/
inductive JsError : Type
  | typeError (msg : String)
deriving DecidableEq

/-- `console.log.apply(null, xs)` never throws: it returns (undefined and)
the single write event `xs`. -/
def consoleLogApply {V : Type} (xs : List V) : Except JsError (List (List V)) :=
  Except.ok [xs]

/-- The error-aware run of the fully applied `log`: the body is one
`console.log` call followed by `return data`, with no error branch. -/
def logRunE {V : Type} (args : List V) (data : V) :
    Except JsError (V × List (List V)) :=
  match consoleLogApply (args ++ [data]) with
  | Except.ok w => Except.ok (data, w)
  | Except.error e => Except.error e

/-- The error-aware run of `mockStream`: an object literal cannot throw. -/
def mockStreamE {V : Type} (s : V) : Except JsError (List (String × V)) :=
  Except.ok (mockStream s)

/-- Claim C1: applying `averageTriangle` to `[[2,4],[3,3],[4,8]]` yields a
numeric result equal to exactly 49/6, which lies within 0.0005 of 8.167. -/
theorem averageTriangle_triangles_eq :
    averageTriangle triangles = some (49 / 6) ∧
      |49 / 6 - (8167 : ℚ) / 1000| < 5 / 10000 := by
  constructor
  · simp [averageTriangle, triangles, multiplySides, divideByTwo, mean]
    norm_num
  · rw [abs_sub_lt_iff]
    norm_num

/-- Claim C2: for every tag list and data value, `log(...args)(data)`
returns the data value unchanged. -/
theorem log_returns_data {V : Type} (args : List V) (data : V) :
    (log args data).1 = data :=
  rfl

/-- Claim C3: for every list of side pairs `[w, h]`, `averageTriangle`
equals the mean over the list of `(w*h)/2`: each pair is mapped to the
product of its sides, each product to half of it, and the mean is taken. -/
theorem averageTriangle_eq_mean_of_half_products (l : List (ℚ × ℚ)) :
    averageTriangle (l.map fun p => [p.1, p.2]) =
      mean (l.map fun p => p.1 * p.2 / 2) := by
  have hfun : (divideByTwo ∘ multiplySides ∘ fun p : ℚ × ℚ => [p.1, p.2]) =
      fun p : ℚ × ℚ => p.1 * p.2 / 2 := by
    funext p
    simp [multiplySides, divideByTwo]
  simp [averageTriangle, List.map_map, hfun]

/-- Claim C4: for every stream value `s`, the object `mockStream(s)`
exposes `s` under the fixed field name `$`. -/
theorem mockStream_dollar_field {V : Type} (s : V) :
    (mockStream s).lookup "$" = some s :=
  rfl

/-- Claim C5: applying `log(...args)` to `data` performs exactly one console
write, whose arguments are the tags in their given order followed by `data`
as the last argument, and emits no other write event. -/
theorem log_single_write {V : Type} (args : List V) (data : V) :
    (log args data).2 = [args ++ [data]] :=
  rfl

/-- Claim C6: on every input, the fully applied `log` and `mockStream`
return normally (the error-aware runs are `Except.ok` of the pure results);
no error branch exists in either. -/
theorem log_mockStream_no_error {V : Type} (args : List V) (data s : V) :
    logRunE args data = Except.ok (log args data) ∧
      mockStreamE s = Except.ok (mockStream s) :=
  ⟨rfl, rfl⟩

/-- Claim C7: the object returned by `mockStream(s)` has exactly one own
field, named `$`; in particular no `_type` property is present at runtime. -/
theorem mockStream_fields {V : Type} (s : V) :
    (mockStream s).map Prod.fst = ["$"] ∧
      (mockStream s).lookup "_type" = none :=
  ⟨rfl, rfl⟩

/-- Claim C8: on the empty list, `averageTriangle` returns no numeric
average: the mean step divides the sum 0 by the length 0 (`NaN` in
JavaScript, modelled `none`), and no error is thrown. -/
theorem averageTriangle_nil :
    averageTriangle [] = none :=
  rfl

/-- Claim C9: `averageTriangle` is invariant under permutation of the
list of triangles. -/
theorem averageTriangle_perm (l₁ l₂ : List (List ℚ)) (h : l₁.Perm l₂) :
    averageTriangle l₁ = averageTriangle l₂ := by
  have h' : ((l₁.map multiplySides).map divideByTwo).Perm
      ((l₂.map multiplySides).map divideByTwo) := (h.map _).map _
  unfold averageTriangle mean
  rw [h'.length_eq, h'.sum_eq]

/-- Witness for claim C9 at a concrete permuted pair of inputs. -/
theorem averageTriangle_perm_witness :
    ([[(2 : ℚ), 4], [3, 3]] : List (List ℚ)).Perm [[3, 3], [2, 4]] ∧
      averageTriangle [[(2 : ℚ), 4], [3, 3]] = averageTriangle [[3, 3], [2, 4]] :=
  ⟨by decide, averageTriangle_perm _ _ (by decide)⟩

/-- Claim C10: the value returned by the logger is independent of the tags:
for any two tag lists and every data value, both runs return the same value. -/
theorem log_tag_noninterference {V : Type} (args₁ args₂ : List V) (data : V) :
    (log args₁ data).1 = (log args₂ data).1 :=
  rfl

end BlogTestbed
